import Mathlib

/-!
Verification of the Session abstraction from `src/ext/common/Session.h`
(Phusion Passenger). The session owns a stream file descriptor (`fd`,
with `-1` as the "absent" sentinel), a backend process id and a close
callback. We embed `StandardSession`'s operations as pure functions from
the session state and an explicit outcome of the underlying system call
to a result record holding the new state, the trace of observable side
effects (system calls performed, callback invocations) and the raised
error, if any.
-/

namespace Passenger

/-- Errors raised by session operations, mirroring the exception types
from `Exceptions.h` as used in `Session.h`: `IOException` carries a
message, `SystemException` carries a brief message plus the preserved
`errno` code. -/
inductive SessionError where
  | ioException (message : String)
  | systemException (brief : String) (code : Nat)
  deriving DecidableEq

/-- Observable side effects of a session operation: underlying system
calls and writes performed on a file descriptor, and invocation of the
close callback. -/
inductive Event where
  | closeFd (fd : Int)
  | shutdownRd (fd : Int)
  | shutdownWr (fd : Int)
  | writeScalar (fd : Int) (data : List Nat)
  | writeRaw (fd : Int) (data : List Nat)
  | setReadTimeout (fd : Int) (msec : Nat)
  | setWriteTimeout (fd : Int) (msec : Nat)
  | callbackInvoked
  deriving DecidableEq

/-- State of a `StandardSession`: the owned stream descriptor (`-1` when
absent), the backend process id, and the pool identifier string from the
`Session` base class. The close callback itself is external; its
invocation is recorded as an `Event`. -/
structure StandardSession where
  fd : Int
  pid : Int
  poolIdentifier : String
  deriving DecidableEq

/-- Result of one session operation: the state afterwards, the trace of
side effects performed, and the error raised (`none` when the operation
returned normally). -/
structure OpResult where
  state : StandardSession
  events : List Event
  error : Option SessionError
  deriving DecidableEq

/-- The errno value `EIO`, tested for by `StandardSession::closeStream`. -/
def EIO : Nat := 5

/-- Embeds `StandardSession::getStream`: returns the descriptor field,
`-1` when the channel has been closed or discarded. -/
def getStream (s : StandardSession) : Int := s.fd

/-- Embeds `Session::sendHeaders(const char *, unsigned int)`: raises
`IOException` when the stream is `-1`; otherwise calls
`MessageChannel(stream).writeScalar(headers, size)`, re-raising a failed
write as a `SystemException` with its brief message replaced and its
error code preserved. `writeResult` is the outcome of the underlying
write (`none` for success, `some e` for failure with errno `e`). -/
def sendHeaders (s : StandardSession) (headers : List Nat)
    (writeResult : Option Nat) : OpResult :=
  if getStream s = -1 then
    { state := s, events := [],
      error := some (.ioException "Cannot write headers to the request handler because the I/O stream has already been closed or discarded.") }
  else
    { state := s, events := [Event.writeScalar (getStream s) headers],
      error := writeResult.map
        (SessionError.systemException "An error occured while writing headers to the request handler") }

/-- Embeds `Session::sendBodyBlock`: raises `IOException` when the
stream is `-1`; otherwise calls `MessageChannel(stream).writeRaw(block,
size)`, re-raising a failed write as a `SystemException` with its brief
message replaced and its error code preserved. -/
def sendBodyBlock (s : StandardSession) (block : List Nat)
    (writeResult : Option Nat) : OpResult :=
  if getStream s = -1 then
    { state := s, events := [],
      error := some (.ioException "Cannot write request body block to the request handler because the I/O channel has already been closed or discarded.") }
  else
    { state := s, events := [Event.writeRaw (getStream s) block],
      error := writeResult.map
        (SessionError.systemException "An error occured while sending the request body to the request handler") }

/-- Embeds `StandardSession::setReaderTimeout`: forwards unconditionally
to `MessageChannel(fd).setReadTimeout(msec)` without checking `fd`. The
primitive lives in `MessageChannel.h` (outside this core) and may raise
a `SystemException`; its outcome is the parameter `result`, carrying the
brief message and code of the raised exception on failure. -/
def setReaderTimeout (s : StandardSession) (msec : Nat)
    (result : Option (String × Nat)) : OpResult :=
  { state := s, events := [Event.setReadTimeout s.fd msec],
    error := result.map fun p => SessionError.systemException p.1 p.2 }

/-- Embeds `StandardSession::setWriterTimeout`: forwards unconditionally
to `MessageChannel(fd).setWriteTimeout(msec)` without checking `fd`. -/
def setWriterTimeout (s : StandardSession) (msec : Nat)
    (result : Option (String × Nat)) : OpResult :=
  { state := s, events := [Event.setWriteTimeout s.fd msec],
    error := result.map fun p => SessionError.systemException p.1 p.2 }

/-- Embeds `StandardSession::shutdownReader`: when `fd != -1`, calls
`syscalls::shutdown(fd, SHUT_RD)` and raises a `SystemException` on
failure; otherwise does nothing. `ret` is the syscall outcome. -/
def shutdownReader (s : StandardSession) (ret : Option Nat) : OpResult :=
  if s.fd ≠ -1 then
    { state := s, events := [Event.shutdownRd s.fd],
      error := ret.map (SessionError.systemException "Cannot shutdown the reader stream") }
  else
    { state := s, events := [], error := none }

/-- Embeds `StandardSession::shutdownWriter`: when `fd != -1`, calls
`syscalls::shutdown(fd, SHUT_WR)` and raises a `SystemException` on
failure; otherwise does nothing. -/
def shutdownWriter (s : StandardSession) (ret : Option Nat) : OpResult :=
  if s.fd ≠ -1 then
    { state := s, events := [Event.shutdownWr s.fd],
      error := ret.map (SessionError.systemException "Cannot shutdown the writer stream") }
  else
    { state := s, events := [], error := none }

/-- The error raised by `StandardSession::closeStream` when the
underlying `close` fails with errno `e`: a distinct message when
`errno == EIO` (a buffered write failure surfaced at close time),
the generic close-failure message otherwise. -/
def closeErrorOf (e : Nat) : SessionError :=
  if e = EIO then
    .systemException "A write operation on the session stream failed" e
  else
    .systemException "Cannot close the session stream" e

/-- Embeds `StandardSession::closeStream`: when `fd != -1`, calls
`syscalls::close(fd)`, sets `fd = -1` (before any error is raised), and
raises a `SystemException` if the close failed; otherwise does nothing.
`ret` is the syscall outcome (`none` success, `some e` failure with
errno `e`). -/
def closeStream (s : StandardSession) (ret : Option Nat) : OpResult :=
  if s.fd ≠ -1 then
    { state := { s with fd := -1 }, events := [Event.closeFd s.fd],
      error := ret.map closeErrorOf }
  else
    { state := s, events := [], error := none }

/-- Embeds `StandardSession::discardStream`: sets `fd = -1` without
performing any system call. -/
def discardStream (s : StandardSession) : OpResult :=
  { state := { s with fd := -1 }, events := [], error := none }

/-- Embeds `StandardSession::~StandardSession`: calls `closeStream()`
then `closeCallback()`. In C++ an exception thrown by `closeStream()`
propagates out of the destructor body, so `closeCallback()` runs only
when the close attempt did not raise. -/
def destructor (s : StandardSession) (closeRet : Option Nat) : OpResult :=
  if (closeStream s closeRet).error = none then
    { state := (closeStream s closeRet).state,
      events := (closeStream s closeRet).events ++ [Event.callbackInvoked],
      error := none }
  else closeStream s closeRet

/-- Embeds `Session::getPid` for `StandardSession`. -/
def getPid (s : StandardSession) : Int := s.pid

/-- Embeds `Session::getPoolIdentifier`. -/
def getPoolIdentifier (s : StandardSession) : String := s.poolIdentifier

/-- Embeds `Session::setPoolIdentifier`. -/
def setPoolIdentifier (s : StandardSession) (v : String) : StandardSession :=
  { s with poolIdentifier := v }

/-- Modelled from the spec: the framing collaborator (`MessageChannel`,
not part of this core) provides a length-framed send-one-message
primitive used by `sendHeaders` and a raw-bytes primitive used by
`sendBodyBlock`. On the wire, one `writeScalar` call yields exactly one
framed message whose payload equals the given buffer byte-for-byte; one
`writeRaw` call yields its bytes unframed. -/
inductive WireItem where
  | framedMessage (payload : List Nat)
  | rawBytes (data : List Nat)
  deriving DecidableEq

/-- Projects an event trace onto the wire: each `writeScalar` becomes
one framed message, each `writeRaw` becomes raw bytes; non-writing
events put nothing on the wire. -/
def wireOf : List Event → List WireItem
  | [] => []
  | Event.writeScalar _ d :: rest => WireItem.framedMessage d :: wireOf rest
  | Event.writeRaw _ d :: rest => WireItem.rawBytes d :: wireOf rest
  | _ :: rest => wireOf rest

/-- The unframed byte stream of a wire trace: concatenation of all raw
chunks, in order, with no added boundaries. -/
def rawWire : List WireItem → List Nat
  | [] => []
  | WireItem.rawBytes d :: rest => d ++ rawWire rest
  | WireItem.framedMessage _ :: rest => rawWire rest

/-- Encoder for the header wire grammar documented at
`Session::sendHeaders` (`header ::= name NUL value NUL`, bytes as
naturals, `0` is NUL): each pair contributes its name, a NUL, its value
and a NUL. -/
def encodeHeaders : List (List Nat × List Nat) → List Nat
  | [] => []
  | p :: rest => p.1 ++ 0 :: (p.2 ++ 0 :: encodeHeaders rest)

/-- A pair is valid under the grammar when its name and value are
non-empty and NUL-free. -/
def validPair (p : List Nat × List Nat) : Prop :=
  p.1 ≠ [] ∧ p.2 ≠ [] ∧ 0 ∉ p.1 ∧ 0 ∉ p.2

instance (p : List Nat × List Nat) : Decidable (validPair p) := by
  unfold validPair
  infer_instance

/-- A buffer is valid under the header grammar when it is the encoding
of some list of valid pairs. -/
def ValidHeaderBuffer (buf : List Nat) : Prop :=
  ∃ pairs : List (List Nat × List Nat),
    (∀ p ∈ pairs, validPair p) ∧ buf = encodeHeaders pairs

/-- Splits a byte buffer on NUL (`0`) bytes: `splitOnNul [a,0,b]` is
`[[a],[b]]`, and a trailing NUL leaves a final empty token. -/
def splitOnNul : List Nat → List (List Nat)
  | [] => [[]]
  | 0 :: rest => [] :: splitOnNul rest
  | c :: rest =>
    match splitOnNul rest with
    | [] => [[c]]
    | t :: ts => (c :: t) :: ts

/-- The tokens (name, value, name, value, ...) of a pair list, in order. -/
def tokensOf : List (List Nat × List Nat) → List (List Nat)
  | [] => []
  | p :: rest => p.1 :: p.2 :: tokensOf rest

theorem splitOnNul_append (n rest : List Nat) (h : 0 ∉ n) :
    splitOnNul (n ++ 0 :: rest) = n :: splitOnNul rest := by
  induction n with
  | nil => simp [splitOnNul]
  | cons c n ih =>
    have hc : c ≠ 0 := fun hh => h (hh ▸ List.mem_cons_self c n)
    have hn : 0 ∉ n := fun hh => h (List.mem_cons_of_mem c hh)
    cases c with
    | zero => exact absurd rfl hc
    | succ d =>
      show splitOnNul (Nat.succ d :: (n ++ 0 :: rest)) = _
      rw [splitOnNul, ih hn]
      exact Nat.succ_ne_zero d

theorem splitOnNul_encodeHeaders (pairs : List (List Nat × List Nat))
    (h : ∀ p ∈ pairs, validPair p) :
    splitOnNul (encodeHeaders pairs) = tokensOf pairs ++ [[]] := by
  induction pairs with
  | nil => simp [encodeHeaders, splitOnNul, tokensOf]
  | cons p rest ih =>
    have hp : validPair p := h p (List.mem_cons_self p rest)
    have hr : ∀ q ∈ rest, validPair q := fun q hq => h q (List.mem_cons_of_mem p hq)
    rw [encodeHeaders, splitOnNul_append p.1 _ hp.2.2.1,
        splitOnNul_append p.2 _ hp.2.2.2, ih hr, tokensOf]
    rfl

theorem tokensOf_filter_length (pairs : List (List Nat × List Nat))
    (h : ∀ p ∈ pairs, validPair p) :
    ((tokensOf pairs ++ [([] : List Nat)]).filter (fun t => !t.isEmpty)).length
      = 2 * pairs.length := by
  induction pairs with
  | nil => simp [tokensOf]
  | cons p rest ih =>
    have hp : validPair p := h p (List.mem_cons_self p rest)
    have hr : ∀ q ∈ rest, validPair q := fun q hq => h q (List.mem_cons_of_mem p hq)
    have h1 : (!p.1.isEmpty) = true := by
      cases hx : p.1 with
      | nil => exact absurd hx hp.1
      | cons a l => simp
    have h2 : (!p.2.isEmpty) = true := by
      cases hx : p.2 with
      | nil => exact absurd hx hp.2.1
      | cons a l => simp
    rw [tokensOf, List.cons_append, List.cons_append, List.filter_cons,
        List.filter_cons, h1, h2, if_pos rfl, if_pos rfl]
    simp only [List.length_cons, ih hr]
    ring

theorem closeStream_state_fd (s : StandardSession) (r : Option Nat) :
    (closeStream s r).state.fd = -1 := by
  unfold closeStream
  by_cases h : s.fd = -1 <;> simp [h]

theorem closeStream_absent (t : StandardSession) (r : Option Nat) (h : t.fd = -1) :
    closeStream t r = ⟨t, [], none⟩ := by
  unfold closeStream
  simp [h]

theorem shutdownReader_absent (t : StandardSession) (r : Option Nat) (h : t.fd = -1) :
    shutdownReader t r = ⟨t, [], none⟩ := by
  unfold shutdownReader
  simp [h]

theorem shutdownWriter_absent (t : StandardSession) (r : Option Nat) (h : t.fd = -1) :
    shutdownWriter t r = ⟨t, [], none⟩ := by
  unfold shutdownWriter
  simp [h]

theorem shutdownReader_state (s : StandardSession) (r : Option Nat) :
    (shutdownReader s r).state = s := by
  unfold shutdownReader
  split <;> rfl

theorem shutdownWriter_state (s : StandardSession) (r : Option Nat) :
    (shutdownWriter s r).state = s := by
  unfold shutdownWriter
  split <;> rfl

theorem closeStream_no_callback (s : StandardSession) (r : Option Nat) :
    (closeStream s r).events.count Event.callbackInvoked = 0 := by
  unfold closeStream
  by_cases h : s.fd = -1 <;> simp [h, List.count_cons]

/-- C1 counterexample: with a present descriptor `5` and a close attempt
failing with errno `13`, the destructor performs the close attempt but
the release callback is never invoked, contradicting "invokes the
release callback exactly once ... regardless of whether that close
attempt succeeds or fails". -/
theorem c1_counterexample :
    (destructor ⟨5, 1234, ""⟩ (some 13)).events = [Event.closeFd 5] ∧
    (destructor ⟨5, 1234, ""⟩ (some 13)).events.count Event.callbackInvoked ≠ 1 := by
  decide

/-- C1 (amended): destroying the session performs the close attempt
first and, whenever that close attempt does not raise an error (it
succeeded, or was a no-op because the handle was already closed or
discarded), invokes the release callback exactly once, as the last
effect; when the close attempt raises, the error propagates out of the
destructor and the release callback is not invoked at all. -/
theorem c1_destructor_release_callback (s : StandardSession) (r : Option Nat) :
    ((destructor s r).error = none →
      (destructor s r).events.count Event.callbackInvoked = 1 ∧
      (destructor s r).events.getLast? = some Event.callbackInvoked) ∧
    (∀ e, (destructor s r).error = some e →
      (destructor s r).events.count Event.callbackInvoked = 0) := by
  unfold destructor
  by_cases herr : (closeStream s r).error = none
  · simp only [herr, if_pos rfl]
    refine ⟨fun _ => ⟨?_, ?_⟩, fun e he => by simp at he⟩
    · simp [List.count_append, closeStream_no_callback]
    · simp
  · simp only [if_neg herr]
    exact ⟨fun hc => absurd hc herr, fun e he => closeStream_no_callback s r⟩

/-- C1 witness: destroying a fresh session whose close attempt succeeds
invokes the release callback exactly once, after the close. -/
theorem c1_witness :
    (destructor ⟨5, 1234, ""⟩ none).events.count Event.callbackInvoked = 1 ∧
    (destructor ⟨5, 1234, ""⟩ none).events.getLast? = some Event.callbackInvoked :=
  (c1_destructor_release_callback ⟨5, 1234, ""⟩ none).1 rfl

/-- C2: after `closeStream` (whatever the syscall outcome) or
`discardStream`, `getStream` on the resulting state reports the absent
sentinel `-1`, and every subsequent `closeStream`, `shutdownReader` or
`shutdownWriter` call on that state is a no-op: unchanged state, no
underlying system call performed, no error raised. -/
theorem c2_absent_noops (s : StandardSession) (r r' : Option Nat) :
    getStream (closeStream s r).state = -1 ∧
    getStream (discardStream s).state = -1 ∧
    closeStream (closeStream s r).state r' = ⟨(closeStream s r).state, [], none⟩ ∧
    shutdownReader (closeStream s r).state r' = ⟨(closeStream s r).state, [], none⟩ ∧
    shutdownWriter (closeStream s r).state r' = ⟨(closeStream s r).state, [], none⟩ ∧
    closeStream (discardStream s).state r' = ⟨(discardStream s).state, [], none⟩ ∧
    shutdownReader (discardStream s).state r' = ⟨(discardStream s).state, [], none⟩ ∧
    shutdownWriter (discardStream s).state r' = ⟨(discardStream s).state, [], none⟩ :=
  ⟨closeStream_state_fd s r, rfl,
   closeStream_absent _ r' (closeStream_state_fd s r),
   shutdownReader_absent _ r' (closeStream_state_fd s r),
   shutdownWriter_absent _ r' (closeStream_state_fd s r),
   closeStream_absent _ r' rfl,
   shutdownReader_absent _ r' rfl,
   shutdownWriter_absent _ r' rfl⟩

/-- C3: on a present handle, `closeStream` performs exactly one close
system call and leaves the handle absent no matter whether that close
succeeded or failed (the handle is cleared before any error is raised),
so a subsequent `closeStream` never performs a second close. -/
theorem c3_close_sets_absent_before_error (s : StandardSession)
    (r r' : Option Nat) (h : s.fd ≠ -1) :
    (closeStream s r).state.fd = -1 ∧
    (closeStream s r).events = [Event.closeFd s.fd] ∧
    (closeStream (closeStream s r).state r').events = [] := by
  refine ⟨closeStream_state_fd s r, ?_, ?_⟩
  · unfold closeStream
    simp [h]
  · rw [closeStream_absent _ r' (closeStream_state_fd s r)]

/-- C3 witness: closing descriptor `5` with a failing close (errno `9`)
still leaves the handle absent, performed one close call, and a second
`closeStream` performs none. -/
theorem c3_witness :
    (closeStream ⟨5, 1234, ""⟩ (some 9)).state.fd = -1 ∧
    (closeStream ⟨5, 1234, ""⟩ (some 9)).events = [Event.closeFd 5] ∧
    (closeStream (closeStream ⟨5, 1234, ""⟩ (some 9)).state (some 7)).events = [] :=
  c3_close_sets_absent_before_error ⟨5, 1234, ""⟩ (some 9) (some 7) (by decide)

/-- C4: when the underlying close fails with `EIO` (a buffered write
failure surfaced at close time), `closeStream` raises a
`SystemException` with the dedicated pending-write-failure message; any
other errno yields the generic close-failure message; the two errors are
distinguishable. -/
theorem c4_pending_write_failed (s : StandardSession) (h : s.fd ≠ -1) :
    (closeStream s (some EIO)).error =
      some (.systemException "A write operation on the session stream failed" EIO) ∧
    (∀ e, e ≠ EIO → (closeStream s (some e)).error =
      some (.systemException "Cannot close the session stream" e)) ∧
    (∀ e, e ≠ EIO →
      (closeStream s (some EIO)).error ≠ (closeStream s (some e)).error) := by
  refine ⟨?_, fun e he => ?_, fun e he => ?_⟩
  · unfold closeStream
    simp [h, closeErrorOf]
  · unfold closeStream
    simp [h, closeErrorOf, he]
  · unfold closeStream
    simp [h, closeErrorOf, he]

/-- C4 witness: the error for a close failing with `EIO` differs from
the error for a close failing with errno `9`, and both carry the
messages from the source. -/
theorem c4_witness :
    (closeStream ⟨5, 1234, ""⟩ (some EIO)).error ≠
      (closeStream ⟨5, 1234, ""⟩ (some 9)).error :=
  (c4_pending_write_failed ⟨5, 1234, ""⟩ (by decide)).2.2 9 (by decide)

/-- C5: on an absent handle, `sendHeaders` and `sendBodyBlock` raise the
channel-unavailable `IOException` without attempting any write; on a
present handle whose underlying write fails with errno `e`, they raise a
`SystemException` preserving `e` (a transport error wrapping the
underlying system error). -/
theorem c5_send_error_modes (sa sp : StandardSession) (buf blk : List Nat)
    (r : Option Nat) (e : Nat) (ha : sa.fd = -1) (hp : sp.fd ≠ -1) :
    (sendHeaders sa buf r).error = some (.ioException
      "Cannot write headers to the request handler because the I/O stream has already been closed or discarded.") ∧
    (sendBodyBlock sa blk r).error = some (.ioException
      "Cannot write request body block to the request handler because the I/O channel has already been closed or discarded.") ∧
    (sendHeaders sa buf r).events = [] ∧
    (sendBodyBlock sa blk r).events = [] ∧
    (sendHeaders sp buf (some e)).error = some (.systemException
      "An error occured while writing headers to the request handler" e) ∧
    (sendBodyBlock sp blk (some e)).error = some (.systemException
      "An error occured while sending the request body to the request handler" e) := by
  unfold sendHeaders sendBodyBlock getStream
  simp [ha, hp]

/-- C5 witness: a session with absent handle fails both sends with the
`IOException` messages and performs no write; a session on descriptor
`5` whose write fails with errno `9` raises the wrapping
`SystemException` with code `9`. -/
theorem c5_witness :
    (sendHeaders ⟨-1, 1234, ""⟩ [65] none).error = some (.ioException
      "Cannot write headers to the request handler because the I/O stream has already been closed or discarded.") ∧
    (sendBodyBlock ⟨-1, 1234, ""⟩ [66] none).error = some (.ioException
      "Cannot write request body block to the request handler because the I/O channel has already been closed or discarded.") ∧
    (sendHeaders ⟨-1, 1234, ""⟩ [65] none).events = [] ∧
    (sendBodyBlock ⟨-1, 1234, ""⟩ [66] none).events = [] ∧
    (sendHeaders ⟨5, 1234, ""⟩ [65] (some 9)).error = some (.systemException
      "An error occured while writing headers to the request handler" 9) ∧
    (sendBodyBlock ⟨5, 1234, ""⟩ [66] (some 9)).error = some (.systemException
      "An error occured while sending the request body to the request handler" 9) :=
  c5_send_error_modes ⟨-1, 1234, ""⟩ ⟨5, 1234, ""⟩ [65] [66] none 9 rfl (by decide)

/-- C6: `discardStream` sets the handle to the absent sentinel without
performing any system call (in particular no close), and raises no
error; the underlying stream is untouched. -/
theorem c6_discard_no_close (s : StandardSession) :
    getStream (discardStream s).state = -1 ∧
    (discardStream s).events = [] ∧
    (discardStream s).error = none :=
  ⟨rfl, rfl, rfl⟩

/-- C7: on a present handle, `sendHeaders buf` puts exactly one framed
message with payload `buf` on the wire, and two successive
`sendBodyBlock` calls put their blocks on the wire raw and unframed,
concatenated in call order with no added boundaries. -/
theorem c7_wire_format (s : StandardSession) (buf a b : List Nat) (h : s.fd ≠ -1) :
    wireOf (sendHeaders s buf none).events = [WireItem.framedMessage buf] ∧
    wireOf ((sendBodyBlock s a none).events ++ (sendBodyBlock s b none).events) =
      [WireItem.rawBytes a, WireItem.rawBytes b] ∧
    rawWire (wireOf ((sendBodyBlock s a none).events ++ (sendBodyBlock s b none).events)) =
      a ++ b := by
  unfold sendHeaders sendBodyBlock getStream
  simp [h, wireOf, rawWire]

/-- C7 witness: on descriptor `5`, sending headers `[65]` frames exactly
that payload, and body blocks `[97]`, `[98]` appear raw and contiguous. -/
theorem c7_witness :
    wireOf (sendHeaders ⟨5, 1234, ""⟩ [65] none).events =
      [WireItem.framedMessage [65]] ∧
    wireOf ((sendBodyBlock ⟨5, 1234, ""⟩ [97] none).events ++
        (sendBodyBlock ⟨5, 1234, ""⟩ [98] none).events) =
      [WireItem.rawBytes [97], WireItem.rawBytes [98]] ∧
    rawWire (wireOf ((sendBodyBlock ⟨5, 1234, ""⟩ [97] none).events ++
        (sendBodyBlock ⟨5, 1234, ""⟩ [98] none).events)) = [97] ++ [98] :=
  c7_wire_format ⟨5, 1234, ""⟩ [65] [97] [98] (by decide)

/-- C8: encoding the pairs `[("A","1"),("B","2")]` (bytes `65`, `49`,
`66`, `50`) yields exactly `A NUL 1 NUL B NUL 2 NUL`, and splitting any
buffer valid under the header grammar on NUL bytes yields an even number
of non-empty tokens. -/
theorem c8_header_grammar :
    encodeHeaders [([65], [49]), ([66], [50])] = [65, 0, 49, 0, 66, 0, 50, 0] ∧
    ∀ buf : List Nat, ValidHeaderBuffer buf →
      ((splitOnNul buf).filter (fun t => !t.isEmpty)).length % 2 = 0 := by
  refine ⟨rfl, ?_⟩
  rintro buf ⟨pairs, hv, rfl⟩
  rw [splitOnNul_encodeHeaders pairs hv, tokensOf_filter_length pairs hv]
  omega

/-- C8 witness: the buffer `A NUL 1 NUL` is valid under the grammar and
splits into an even number of non-empty tokens. -/
theorem c8_witness :
    ((splitOnNul [65, 0, 49, 0]).filter (fun t => !t.isEmpty)).length % 2 = 0 :=
  c8_header_grammar.2 [65, 0, 49, 0] ⟨[([65], [49])], by decide, rfl⟩

/-- C9: on a session whose handle is absent, `setReaderTimeout` and
`setWriterTimeout` do not raise the channel-unavailable `IOException`:
the handle is not checked, and the underlying timeout-configuration
primitive is invoked with the absent sentinel `-1`. -/
theorem c9_timeout_no_absent_check (s : StandardSession) (msec : Nat)
    (r : Option (String × Nat)) (h : s.fd = -1) :
    (setReaderTimeout s msec r).events = [Event.setReadTimeout (-1) msec] ∧
    (setWriterTimeout s msec r).events = [Event.setWriteTimeout (-1) msec] ∧
    (∀ m, (setReaderTimeout s msec r).error ≠ some (.ioException m)) ∧
    (∀ m, (setWriterTimeout s msec r).error ≠ some (.ioException m)) := by
  unfold setReaderTimeout setWriterTimeout
  refine ⟨by rw [h], by rw [h], fun m => ?_, fun m => ?_⟩ <;>
    cases r <;> simp

/-- C9 witness: a session with absent handle passes `-1` to both
timeout primitives and raises no `IOException`. -/
theorem c9_witness :
    (setReaderTimeout ⟨-1, 1234, ""⟩ 7 none).events =
      [Event.setReadTimeout (-1) 7] ∧
    (setWriterTimeout ⟨-1, 1234, ""⟩ 7 none).events =
      [Event.setWriteTimeout (-1) 7] ∧
    (∀ m, (setReaderTimeout ⟨-1, 1234, ""⟩ 7 none).error ≠ some (.ioException m)) ∧
    (∀ m, (setWriterTimeout ⟨-1, 1234, ""⟩ 7 none).error ≠ some (.ioException m)) :=
  c9_timeout_no_absent_check ⟨-1, 1234, ""⟩ 7 none rfl

/-- C10: `shutdownReader` and `shutdownWriter` leave the session state
(and thus the handle) unchanged; after a half-close on a present handle,
`getStream` still returns the same descriptor, and `sendBodyBlock` and
`closeStream` still operate on it rather than failing with the
channel-unavailable error. -/
theorem c10_shutdown_preserves_handle (s : StandardSession)
    (r r' : Option Nat) (blk : List Nat) (h : s.fd ≠ -1) :
    (shutdownReader s r).state = s ∧
    (shutdownWriter s r).state = s ∧
    getStream (shutdownWriter s r).state = s.fd ∧
    (sendBodyBlock (shutdownWriter s r).state blk none).error = none ∧
    (sendBodyBlock (shutdownWriter s r).state blk none).events =
      [Event.writeRaw s.fd blk] ∧
    (closeStream (shutdownReader s r).state r').events = [Event.closeFd s.fd] := by
  rw [shutdownReader_state, shutdownWriter_state]
  unfold sendBodyBlock closeStream getStream
  simp [h]

/-- C10 witness: after half-closing either direction of a session on
descriptor `5`, the handle is still `5` and body writes and close still
target it. -/
theorem c10_witness :
    (shutdownReader ⟨5, 1234, ""⟩ none).state = ⟨5, 1234, ""⟩ ∧
    (shutdownWriter ⟨5, 1234, ""⟩ none).state = ⟨5, 1234, ""⟩ ∧
    getStream (shutdownWriter ⟨5, 1234, ""⟩ none).state = 5 ∧
    (sendBodyBlock (shutdownWriter ⟨5, 1234, ""⟩ none).state [97] none).error = none ∧
    (sendBodyBlock (shutdownWriter ⟨5, 1234, ""⟩ none).state [97] none).events =
      [Event.writeRaw 5 [97]] ∧
    (closeStream (shutdownReader ⟨5, 1234, ""⟩ none).state none).events =
      [Event.closeFd 5] :=
  c10_shutdown_preserves_handle ⟨5, 1234, ""⟩ none none [97] (by decide)

end Passenger
